import Mathlib

/-!
Shallow embedding of the rule-evaluation core of `src/app_cloud_min.py`
(document checking for business-registration and disinfection certificates):
calendar dates, the three date-extraction patterns of `DATE_PATTERNS`,
`find_dates`, `month_diff`, the two checkers and the checker registry
`DOC_CHECKERS`.  Python `datetime.date` values are triples of naturals
validated against the proleptic Gregorian calendar; Python float arithmetic
in `month_diff` is modelled with exact rationals (see the comment there);
regex character classes `\d` and `\s` are modelled by the exact Unicode
code-point ranges that CPython's `re` matches for them on a `str`
(`ndDigitStarts` and `pySpaceRanges` below).
-/

/-- A Python `datetime.date` value: a (year, month, day) triple.
Validity against the Gregorian calendar is a separate predicate
(`validDate`), mirroring that `dt.date(y, m, d)` raises on invalid input. -/
structure CalendarDate where
  year : Nat
  month : Nat
  day : Nat
deriving DecidableEq

/-- Gregorian leap-year test, as in Python's `datetime`. -/
def isLeapYear (y : Nat) : Bool :=
  y % 4 == 0 && (y % 100 != 0 || y % 400 == 0)

/-- Days in a month, as in Python's `datetime`. -/
def daysInMonth (y m : Nat) : Nat :=
  if m == 2 then (if isLeapYear y then 29 else 28)
  else if m == 4 || m == 6 || m == 9 || m == 11 then 30
  else 31

/-- `dt.date(y, m, d)` succeeds exactly on these triples
(`datetime.MINYEAR = 1`, `MAXYEAR = 9999`). -/
def validDate (y m d : Nat) : Bool :=
  1 ≤ y && y ≤ 9999 && 1 ≤ m && m ≤ 12 && 1 ≤ d && d ≤ daysInMonth y m

/-- Python date comparison `<` (lexicographic on year, month, day). -/
def dateLtb (a b : CalendarDate) : Bool :=
  a.year < b.year ||
    (a.year == b.year &&
      (a.month < b.month || (a.month == b.month && a.day < b.day)))

/-- Python date comparison `<=`. -/
def dateLeb (a b : CalendarDate) : Bool :=
  dateLtb a b || (a.year == b.year && a.month == b.month && a.day == b.day)

/-- `month_diff` (src/app_cloud_min.py:62-63):
`(d1.year - d2.year) * 12 + (d1.month - d2.month) + (d1.day - d2.day) / 30.0`.
The Python computation is on floats; it is modelled with exact rationals.
On the reachable domain (integer year/month/day differences, thresholds
`2 + 0.1` and `3 + 0.1`) the float comparison of the checker and the exact
rational comparison agree: neighbouring exactly-representable rational
values of the formula are at least `1/30` apart, far above double rounding
error, and at the exact-tie points the double evaluation is equal on both
sides. -/
def month_diff (d1 d2 : CalendarDate) : ℚ :=
  ((d1.year : ℚ) - (d2.year : ℚ)) * 12 + ((d1.month : ℚ) - (d2.month : ℚ)) +
    ((d1.day : ℚ) - (d2.day : ℚ)) / 30

/-- The starts of the contiguous runs of ten Unicode decimal digits
(category Nd) that Python's `\d` matches on a `str`; every such run is
ordered 0-9, so a digit's numeric value (as `int()` consumes it) is its
offset from the run start.  Enumerated from CPython's `re` over all code
points. -/
def ndDigitStarts : List Nat :=
  [0x30, 0x660, 0x6F0, 0x7C0, 0x966, 0x9E6, 0xA66, 0xAE6, 0xB66, 0xBE6,
   0xC66, 0xCE6, 0xD66, 0xDE6, 0xE50, 0xED0, 0xF20, 0x1040, 0x1090, 0x17E0,
   0x1810, 0x1946, 0x19D0, 0x1A80, 0x1A90, 0x1B50, 0x1BB0, 0x1C40, 0x1C50,
   0xA620, 0xA8D0, 0xA900, 0xA9D0, 0xA9F0, 0xAA50, 0xABF0, 0xFF10, 0x104A0,
   0x10D30, 0x11066, 0x110F0, 0x11136, 0x111D0, 0x112F0, 0x11450, 0x114D0,
   0x11650, 0x116C0, 0x11730, 0x118E0, 0x11950, 0x11C50, 0x11D50, 0x11DA0,
   0x16A60, 0x16AC0, 0x16B50, 0x1D7CE, 0x1D7D8, 0x1D7E2, 0x1D7EC, 0x1D7F6,
   0x1E140, 0x1E2F0, 0x1E950, 0x1FBF0]

/-- Python's `\d` on a `str`: any Unicode decimal digit. -/
def pyDigit (c : Char) : Bool :=
  ndDigitStarts.any fun s => s ≤ c.toNat && c.toNat ≤ s + 9

/-- Numeric value of a Unicode decimal digit as `int()` reads it: its
offset inside its 0-9 run (0 on non-digits, which no caller reaches). -/
def digitVal (c : Char) : Nat :=
  match ndDigitStarts.find? (fun s => s ≤ c.toNat && c.toNat ≤ s + 9) with
  | some s => c.toNat - s
  | none => 0

/-- The code-point ranges Python's `\s` matches on a `str` (ASCII
whitespace with the separator controls, plus Unicode whitespace).
Enumerated from CPython's `re` over all code points. -/
def pySpaceRanges : List (Nat × Nat) :=
  [(0x9, 0xD), (0x1C, 0x20), (0x85, 0x85), (0xA0, 0xA0), (0x1680, 0x1680),
   (0x2000, 0x200A), (0x2028, 0x2029), (0x202F, 0x202F), (0x205F, 0x205F),
   (0x3000, 0x3000)]

/-- Python's `\s` on a `str`. -/
def pySpace (c : Char) : Bool :=
  pySpaceRanges.any fun r => r.1 ≤ c.toNat && c.toNat ≤ r.2

/-- The separator class `[. / -]` of `DATE_PATTERNS`. -/
def sepb (c : Char) : Bool := c == '.' || c == '/' || c == '-'

/-- The class `[1-9]` (an explicit ASCII range in the patterns). -/
def isDig19 (c : Char) : Bool := 0x31 ≤ c.toNat && c.toNat ≤ 0x39

/-- The month group `(0[1-9]|1[0-2])` on a two-character window. -/
def month2b (m1 m2 : Char) : Bool :=
  (m1 == '0' && isDig19 m2) || (m1 == '1' && (m2 == '0' || m2 == '1' || m2 == '2'))

/-- The day group `(0[1-9]|[12]\d|3[01])` on a two-character window. -/
def day2b (d1 d2 : Char) : Bool :=
  (d1 == '0' && isDig19 d2) || ((d1 == '1' || d1 == '2') && pyDigit d2) ||
    (d1 == '3' && (d2 == '0' || d2 == '1'))

/-- Anchored match of the first date pattern
`(20\d{2})[. / -](0[1-9]|1[0-2])[. / -](0[1-9]|[12]\d|3[01])` at the head of a
character list, yielding the captured `(year, month, day)`. -/
def p1At : List Char → Option (Nat × Nat × Nat)
  | y1 :: y2 :: y3 :: y4 :: s1 :: m1 :: m2 :: s2 :: d1 :: d2 :: _ =>
    if y1 == '2' && y2 == '0' && pyDigit y3 && pyDigit y4 && sepb s1 &&
        month2b m1 m2 && sepb s2 && day2b d1 d2 then
      some (2000 + 10 * digitVal y3 + digitVal y4,
            10 * digitVal m1 + digitVal m2,
            10 * digitVal d1 + digitVal d2)
    else none
  | _ => none

/-- Anchored match of the second date pattern
`(0[1-9]|1[0-2])[. / -](0[1-9]|[12]\d|3[01])[. / -](20\d{2})`; per the
disambiguation in `find_dates` (the four-digit group is the year) the
result is already ordered `(year, month, day)`. -/
def p2At : List Char → Option (Nat × Nat × Nat)
  | m1 :: m2 :: s1 :: d1 :: d2 :: s2 :: y1 :: y2 :: y3 :: y4 :: _ =>
    if month2b m1 m2 && sepb s1 && day2b d1 d2 && sepb s2 &&
        y1 == '2' && y2 == '0' && pyDigit y3 && pyDigit y4 then
      some (2000 + 10 * digitVal y3 + digitVal y4,
            10 * digitVal m1 + digitVal m2,
            10 * digitVal d1 + digitVal d2)
    else none
  | _ => none

/-- `re.finditer` over a fixed-width-10 pattern: try the anchored match at
each position left to right; on success resume after the consumed ten
characters (matches are non-overlapping).  The fuel argument only bounds
the recursion; every step strictly shortens the list while consuming one
unit of fuel, so fuel = initial length is always sufficient. -/
def scanFixed10 (f : List Char → Option (Nat × Nat × Nat)) :
    Nat → List Char → List (Nat × Nat × Nat)
  | 0, _ => []
  | _, [] => []
  | fuel + 1, c :: rest =>
    match f (c :: rest) with
    | some t => t :: scanFixed10 f fuel (rest.drop 9)
    | none => scanFixed10 f fuel rest

/-- `\s*` (greedy; safe without backtracking here since every character
that can follow it in the third pattern - the literals 년, 월, 일 and the
decimal digits - is never whitespace). -/
def skipWs (cs : List Char) : List Char := cs.dropWhile fun c => pySpace c

/-- The alternatives of the month group `(1[0-2]|0?\d)` of the third date
pattern, in the backtracking order Python tries them: `1[0-2]`, then the
greedy `0\d`, then a bare `\d`.  Each candidate carries the unconsumed
remainder. -/
def p3MonthCands (cs : List Char) : List (Nat × List Char) :=
  (match cs with
   | '1' :: c :: rest =>
     if c == '0' || c == '1' || c == '2' then [(10 + digitVal c, rest)] else []
   | _ => []) ++
  (match cs with
   | '0' :: c :: rest => if pyDigit c then [(digitVal c, rest)] else []
   | _ => []) ++
  (match cs with
   | c :: rest => if pyDigit c then [(digitVal c, rest)] else []
   | _ => [])

/-- The alternatives of the day group `(3[01]|[12]?\d)` of the third date
pattern, in Python's backtracking order: `3[01]`, then `[12]\d`, then `\d`. -/
def p3DayCands (cs : List Char) : List (Nat × List Char) :=
  (match cs with
   | '3' :: c :: rest => if c == '0' || c == '1' then [(30 + digitVal c, rest)] else []
   | _ => []) ++
  (match cs with
   | c1 :: c2 :: rest =>
     if (c1 == '1' || c1 == '2') && pyDigit c2 then
       [(10 * digitVal c1 + digitVal c2, rest)]
     else []
   | _ => []) ++
  (match cs with
   | c :: rest => if pyDigit c then [(digitVal c, rest)] else []
   | _ => [])

/-- Anchored match of the third date pattern
`(20\d{2})\s*년\s*(1[0-2]|0?\d)\s*월\s*(3[01]|[12]?\d)\s*일` with Python's
backtracking over the group alternatives; returns the captures and the
remainder after the match. -/
def p3At : List Char → Option (Nat × Nat × Nat × List Char)
  | '2' :: '0' :: y3 :: y4 :: rest =>
    if pyDigit y3 && pyDigit y4 then
      match skipWs rest with
      | '년' :: r2 =>
        (p3MonthCands (skipWs r2)).findSome? fun mc =>
          match skipWs mc.2 with
          | '월' :: r5 =>
            (p3DayCands (skipWs r5)).findSome? fun dc =>
              match skipWs dc.2 with
              | '일' :: r8 =>
                some (2000 + 10 * digitVal y3 + digitVal y4, mc.1, dc.1, r8)
              | _ => none
          | _ => none
      | _ => none
    else none
  | _ => none

/-- `re.finditer` over the third pattern: anchored attempts at successive
positions, resuming after each match.  The fuel argument only bounds the
recursion; every step strictly shortens the list while consuming one unit
of fuel, so fuel = initial length is always sufficient. -/
def scanP3 : Nat → List Char → List (Nat × Nat × Nat)
  | 0, _ => []
  | _, [] => []
  | fuel + 1, c :: rest =>
    match p3At (c :: rest) with
    | some (y, m, d, r) => (y, m, d) :: scanP3 fuel r
    | none => scanP3 fuel rest

/-- The body of the `try` in `find_dates`: `dt.date(y, mth, d)` appends the
date when the triple is a valid calendar date and is silently skipped
(`except ... continue`) otherwise. -/
def mkDate (t : Nat × Nat × Nat) : Option CalendarDate :=
  if validDate t.1 t.2.1 t.2.2 then some ⟨t.1, t.2.1, t.2.2⟩ else none

/-- `find_dates` (src/app_cloud_min.py:43-59): run the three patterns in
order over the whole text, keep each match whose captures form a valid
calendar date. -/
def find_dates (text : String) : List CalendarDate :=
  ((scanFixed10 p1At text.data.length text.data).filterMap mkDate) ++
    ((scanFixed10 p2At text.data.length text.data).filterMap mkDate) ++
    ((scanP3 text.data.length text.data).filterMap mkDate)

/-- Does `p` occur as a prefix of `l`?  (Helper for Python's substring
test `kw in text`.) -/
def isPrefixList : List Char → List Char → Bool
  | [], _ => true
  | _ :: _, [] => false
  | a :: as, b :: bs => a == b && isPrefixList as bs

/-- Python's substring test `kw in text` on the character lists: `p`
occurs contiguously somewhere in `l`. -/
def hasSub (p : List Char) : List Char → Bool
  | [] => p.isEmpty
  | c :: rest => isPrefixList p (c :: rest) || hasSub p rest

/-- `RULES["사업자등록증"]["fields_required"]` (src/app_cloud_min.py:13). -/
def bizFields : List String := ["상호", "대표자", "사업자등록번호", "사업장", "소재지"]

/-- `RULES["소독필증"]["fields_required"]` (src/app_cloud_min.py:19). -/
def disFields : List String := ["소독", "대상", "시설", "기간", "실시자"]

/-- `RULES["소독필증"]["summer_months"]`. -/
def summerMonths : List Nat := [4, 5, 6, 7, 8, 9]

/-- `RULES["소독필증"]["summer_max_months"]`. -/
def summerMaxMonths : Nat := 2

/-- `RULES["소독필증"]["winter_max_months"]`. -/
def winterMaxMonths : Nat := 3

/-- `CheckResult` (src/app_cloud_min.py:66-70). -/
structure CheckResult where
  name : String
  passed : Bool
  detail : String
deriving DecidableEq

/-- The per-keyword result built by both checkers' required-field loop:
`CheckResult(name=f"필수항목 포함 여부: {kw}", passed=(kw in text), ...)`. -/
def requiredKwResult (kw text : String) : CheckResult :=
  { name := "필수항목 포함 여부: " ++ kw
    passed := hasSub kw.data text.data
    detail := "\x27" ++ kw ++ "\x27 " ++
      (if hasSub kw.data text.data then "존재" else "부재") }

/-- First branch `\d{3}-\d{2}-\d{5}` of the registration-number pattern,
anchored at the head; returns the matched characters. -/
def bizBranch1 : List Char → Option (List Char)
  | c1 :: c2 :: c3 :: s1 :: c4 :: c5 :: s2 :: c6 :: c7 :: c8 :: c9 :: c10 :: _ =>
    if pyDigit c1 && pyDigit c2 && pyDigit c3 && s1 == '-' && pyDigit c4 &&
        pyDigit c5 && s2 == '-' && pyDigit c6 && pyDigit c7 && pyDigit c8 &&
        pyDigit c9 && pyDigit c10 then
      some [c1, c2, c3, s1, c4, c5, s2, c6, c7, c8, c9, c10]
    else none
  | _ => none

/-- Second branch `\d{10}` of the registration-number pattern, anchored at
the head. -/
def bizBranch2 : List Char → Option (List Char)
  | c1 :: c2 :: c3 :: c4 :: c5 :: c6 :: c7 :: c8 :: c9 :: c10 :: _ =>
    if pyDigit c1 && pyDigit c2 && pyDigit c3 && pyDigit c4 && pyDigit c5 &&
        pyDigit c6 && pyDigit c7 && pyDigit c8 && pyDigit c9 && pyDigit c10 then
      some [c1, c2, c3, c4, c5, c6, c7, c8, c9, c10]
    else none
  | _ => none

/-- Anchored match of `(?:(?:\d{3}-\d{2}-\d{5})|(?:\d{10}))`
(src/app_cloud_min.py:15), first branch preferred as in Python. -/
def bizAt (cs : List Char) : Option (List Char) :=
  match bizBranch1 cs with
  | some m => some m
  | none => bizBranch2 cs

/-- `re.search` with the registration-number pattern: the leftmost match. -/
def searchBiz : List Char → Option (List Char)
  | [] => none
  | c :: rest =>
    match bizAt (c :: rest) with
    | some m => some m
    | none => searchBiz rest

/-- The shape `DDD-DD-DDDDD` on an exact twelve-character list. -/
def bizForm1 (m : List Char) : Bool :=
  match m with
  | [c1, c2, c3, s1, c4, c5, s2, c6, c7, c8, c9, c10] =>
    pyDigit c1 && pyDigit c2 && pyDigit c3 && s1 == '-' && pyDigit c4 &&
      pyDigit c5 && s2 == '-' && pyDigit c6 && pyDigit c7 && pyDigit c8 &&
      pyDigit c9 && pyDigit c10
  | _ => false

/-- Exactly ten decimal digits. -/
def bizForm2 (m : List Char) : Bool :=
  match m with
  | [c1, c2, c3, c4, c5, c6, c7, c8, c9, c10] =>
    pyDigit c1 && pyDigit c2 && pyDigit c3 && pyDigit c4 && pyDigit c5 &&
      pyDigit c6 && pyDigit c7 && pyDigit c8 && pyDigit c9 && pyDigit c10
  | _ => false

/-- The shape of a registration-number match: `DDD-DD-DDDDD`, or exactly
ten decimal digits. -/
def bizForm (m : List Char) : Bool := bizForm1 m || bizForm2 m

/-- Line 78-80 of `check_business_registration`: the registration-number
format result, `passed = (re.search(patt, text) is not None)` with the
first matched substring in the detail. -/
def bizNumberResult (text : String) : CheckResult :=
  { name := "사업자등록번호 형식"
    passed := (searchBiz text.data).isSome
    detail := "감지값: " ++
      (match searchBiz text.data with
       | some m => String.mk m
       | none => "-") }

/-- `check_business_registration` (src/app_cloud_min.py:73-81). -/
def check_business_registration (text : String) : List CheckResult :=
  (bizFields.map fun kw => requiredKwResult kw text) ++ [bizNumberResult text]

/-- `max(all_dates)` for a nonempty list; Python `max` keeps the earlier
element on ties (equal dates here, so immaterial). -/
def maxDate : CalendarDate → List CalendarDate → CalendarDate
  | d, [] => d
  | d, e :: es => maxDate (if dateLtb d e then e else d) es

/-- Lines 90-91 of `check_disinfection_certificate`: the dates found in the
text that are on or before today, reduced by `max`, or `None`. -/
def latestPastDate (text : String) (today : CalendarDate) : Option CalendarDate :=
  match (find_dates text).filter (fun d => dateLeb d today) with
  | [] => none
  | d :: ds => some (maxDate d ds)

/-- Two-digit rendering used in Python's ISO date string. -/
def pad2 (n : Nat) : String := if n < 10 then "0" ++ toString n else toString n

/-- Python `str(date)`: `YYYY-MM-DD`. -/
def dateToStr (d : CalendarDate) : String :=
  toString d.year ++ "-" ++ pad2 d.month ++ "-" ++ pad2 d.day

/-- One-decimal rendering of the elapsed-months value, standing in for the
Python float format `f"{elapsed:.1f}"` (rounding mode approximated; no
checked claim depends on this string). -/
def fmt1 (q : ℚ) : String :=
  let n : Int := ⌊q * 10 + 1 / 2⌋
  toString (n / 10) ++ "." ++ toString (n % 10)

/-- Line 92 of `check_disinfection_certificate`: the "latest past date
found" result. -/
def dateFoundResult (text : String) (today : CalendarDate) : CheckResult :=
  { name := "소독일(최신 과거일자) 추출"
    passed := (latestPastDate text today).isSome
    detail := "감지값: " ++
      (match latestPastDate text today with
       | some l => dateToStr l
       | none => "None") }

/-- Lines 94-100 of `check_disinfection_certificate`: the seasonal period
compliance result, emitted only when a latest past date exists. -/
def complianceResult (today l : CalendarDate) : CheckResult :=
  { name := "소독주기 충족 여부"
    passed := decide (month_diff today l ≤
      (if l.month ∈ summerMonths then (summerMaxMonths : ℚ) else (winterMaxMonths : ℚ)) +
        1 / 10)
    detail := "판정기준: " ++
      (if l.month ∈ summerMonths then "하절기(2개월)" else "동절기(3개월)") ++
      ", 경과: " ++ fmt1 (month_diff today l) ++ "개월" }

/-- The compliance check is omitted (not failed) when no latest past date
exists. -/
def complianceResultList (text : String) (today : CalendarDate) : List CheckResult :=
  match latestPastDate text today with
  | some l => [complianceResult today l]
  | none => []

/-- Lines 102-103 of `check_disinfection_certificate`: the future-date
flag over the unfiltered `find_dates` output. -/
def futureResult (text : String) (today : CalendarDate) : CheckResult :=
  { name := "미래 날짜 등록 여부"
    passed := !((find_dates text).any fun d => dateLtb today d)
    detail :=
      if (find_dates text).any fun d => dateLtb today d then "미래 날짜 발견됨"
      else "미발견" }

/-- `check_disinfection_certificate` (src/app_cloud_min.py:84-105), with
`dt.date.today()` made an explicit argument. -/
def check_disinfection_certificate (text : String) (today : CalendarDate) :
    List CheckResult :=
  (disFields.map fun kw => requiredKwResult kw text) ++
    [dateFoundResult text today] ++ complianceResultList text today ++
    [futureResult text today]

/-- The two registered document checkers, as a closed set of variants. -/
inductive DocChecker where
  | business
  | disinfection
deriving DecidableEq

/-- The dispatch failure on an unregistered document-type key.  In the
source the registry is a Python dict indexed directly (line 136), where a
missing key raises `KeyError`; the spec names this failure
`UnknownDocumentType`. -/
inductive DispatchError where
  | unknownDocumentType
deriving DecidableEq

/-- `DOC_CHECKERS` (src/app_cloud_min.py:107-110). -/
def DOC_CHECKERS : List (String × DocChecker) :=
  [("사업자등록증", DocChecker.business), ("소독필증", DocChecker.disinfection)]

/-- Modelled from the spec: the `CheckDispatcher` contract
`dispatch(doc_type) -> DocumentChecker`; the source has no named dispatch
function, only the direct registry lookup `DOC_CHECKERS[doc_type]`
(line 136), whose missing-key `KeyError` is the `UnknownDocumentType`
failure. -/
def dispatch (doc_type : String) : Except DispatchError DocChecker :=
  match List.lookup doc_type DOC_CHECKERS with
  | some c => Except.ok c
  | none => Except.error DispatchError.unknownDocumentType

/-- Running a dispatched checker variant on a text (with the injected
clock for the disinfection checker). -/
def runChecker : DocChecker → String → CalendarDate → List CheckResult
  | DocChecker.business, text, _ => check_business_registration text
  | DocChecker.disinfection, text, today => check_disinfection_certificate text today

/-- Modelled from the spec's words in claim C3: an anchored occurrence of
the numeric form `YYYY sep MM sep DD` — any four decimal digits as the
year, separators from the class, month 01-31 window `01`-`12`, day window
`01`-`31` — whose captured values are `(y, m, d)`. -/
def specNumericAt (cs : List Char) (y m d : Nat) : Bool :=
  match cs with
  | y1 :: y2 :: y3 :: y4 :: s1 :: m1 :: m2 :: s2 :: d1 :: d2 :: _ =>
    pyDigit y1 && pyDigit y2 && pyDigit y3 && pyDigit y4 && sepb s1 &&
      pyDigit m1 && pyDigit m2 && sepb s2 && pyDigit d1 && pyDigit d2 &&
      y == 1000 * digitVal y1 + 100 * digitVal y2 + 10 * digitVal y3 + digitVal y4 &&
      m == 10 * digitVal m1 + digitVal m2 && 1 ≤ m && m ≤ 12 &&
      d == 10 * digitVal d1 + digitVal d2 && 1 ≤ d && d ≤ 31
  | _ => false

/-- Does `p` hold of some suffix of the list? -/
def anySuffix (p : List Char → Bool) : List Char → Bool
  | [] => p []
  | c :: rest => p (c :: rest) || anySuffix p rest

/-- Modelled from the spec's words in claim C3: the text contains an
occurrence of the numeric `YYYY sep MM sep DD` form with captures
`(y, m, d)`. -/
def specNumericOccurrence (text : String) (y m d : Nat) : Bool :=
  anySuffix (fun cs => specNumericAt cs y m d) text.data

theorem isPrefixList_iff (p l : List Char) :
    isPrefixList p l = true ↔ ∃ t, l = p ++ t := by
  induction p generalizing l with
  | nil => simp [isPrefixList]
  | cons a as ih =>
    cases l with
    | nil => simp [isPrefixList]
    | cons b bs =>
      simp only [isPrefixList, Bool.and_eq_true, beq_iff_eq, ih, List.cons_append,
        List.cons.injEq]
      constructor
      · rintro ⟨rfl, t, rfl⟩
        exact ⟨t, rfl, rfl⟩
      · rintro ⟨t, rfl, rfl⟩
        exact ⟨rfl, t, rfl⟩

theorem hasSub_iff (p l : List Char) :
    hasSub p l = true ↔ ∃ s t, l = s ++ p ++ t := by
  induction l with
  | nil =>
    simp only [hasSub, List.isEmpty_iff]
    constructor
    · rintro rfl
      exact ⟨[], [], rfl⟩
    · rintro ⟨s, t, h⟩
      rcases List.append_eq_nil.mp h.symm with ⟨h1, h2⟩
      exact (List.append_eq_nil.mp h1).2
  | cons c rest ih =>
    simp only [hasSub, Bool.or_eq_true, isPrefixList_iff, ih]
    constructor
    · rintro (⟨t, h⟩ | ⟨s, t, h⟩)
      · exact ⟨[], t, by simpa using h⟩
      · exact ⟨c :: s, t, by simp [h]⟩
    · rintro ⟨s, t, h⟩
      cases s with
      | nil =>
        left
        exact ⟨t, by simpa using h⟩
      | cons s0 ss =>
        right
        simp only [List.cons_append, List.cons.injEq] at h
        exact ⟨ss, t, h.2⟩

/-- C8: for every registered key `dispatch` returns the corresponding
checker variant, and for every unregistered key it fails with
`UnknownDocumentType`; it performs no other logic. -/
theorem claim_C8 :
    dispatch "사업자등록증" = Except.ok DocChecker.business ∧
    dispatch "소독필증" = Except.ok DocChecker.disinfection ∧
    ∀ s : String, s ≠ "사업자등록증" → s ≠ "소독필증" →
      dispatch s = Except.error DispatchError.unknownDocumentType := by
  refine ⟨rfl, rfl, fun s h1 h2 => ?_⟩
  have e1 : (s == "사업자등록증") = false := beq_eq_false_iff_ne.mpr h1
  have e2 : (s == "소독필증") = false := beq_eq_false_iff_ne.mpr h2
  simp [dispatch, DOC_CHECKERS, List.lookup, e1, e2]

/-- Witness for C8 at the concrete unregistered key "영수증". -/
theorem claim_C8_witness :
    dispatch "영수증" = Except.error DispatchError.unknownDocumentType :=
  claim_C8.2.2 "영수증" (by decide) (by decide)

/-- C9: each checker's result list is in rule-declaration order — the five
required-field results in `RULES` order, then the format check (business
registration) or the date-found, optional compliance, and future-date
checks (disinfection certificate). -/
theorem claim_C9 (text : String) (today : CalendarDate) :
    (check_business_registration text).map (fun r => r.name) =
      ["필수항목 포함 여부: 상호", "필수항목 포함 여부: 대표자", "필수항목 포함 여부: 사업자등록번호",
       "필수항목 포함 여부: 사업장", "필수항목 포함 여부: 소재지", "사업자등록번호 형식"] ∧
    (check_disinfection_certificate text today).map (fun r => r.name) =
      ["필수항목 포함 여부: 소독", "필수항목 포함 여부: 대상", "필수항목 포함 여부: 시설",
       "필수항목 포함 여부: 기간", "필수항목 포함 여부: 실시자", "소독일(최신 과거일자) 추출"] ++
      (match latestPastDate text today with
       | some _ => ["소독주기 충족 여부"]
       | none => []) ++
      ["미래 날짜 등록 여부"] := by
  constructor
  · simp [check_business_registration, bizFields, requiredKwResult, bizNumberResult]
  · cases h : latestPastDate text today <;>
      simp [check_disinfection_certificate, disFields, requiredKwResult,
        complianceResultList, complianceResult, dateFoundResult, futureResult, h]

/-- C1: whenever a latest past date exists, the compliance result is the
seventh entry and passes exactly when
`(today.year - latest.year) * 12 + (today.month - latest.month) +
(today.day - latest.day) / 30 <= threshold + 0.1`, the threshold being 2
for a latest date in the summer months {4,...,9} and 3 otherwise. -/
theorem claim_C1 (text : String) (today l : CalendarDate)
    (h : latestPastDate text today = some l) :
    (check_disinfection_certificate text today)[6]? = some (complianceResult today l) ∧
    ((complianceResult today l).passed = true ↔
      ((today.year : ℚ) - (l.year : ℚ)) * 12 + ((today.month : ℚ) - (l.month : ℚ)) +
          ((today.day : ℚ) - (l.day : ℚ)) / 30 ≤
        (if l.month ∈ summerMonths then (2 : ℚ) else 3) + 1 / 10) := by
  constructor
  · simp [check_disinfection_certificate, disFields, complianceResultList, h]
  · simp only [complianceResult, decide_eq_true_eq, month_diff, summerMaxMonths,
      winterMaxMonths, Nat.cast_ofNat]

/-- Witness for C1 on the concrete text "2024-05-01" with today
2024-06-15. -/
theorem claim_C1_witness :
    (check_disinfection_certificate "2024-05-01" ⟨2024, 6, 15⟩)[6]? =
      some (complianceResult ⟨2024, 6, 15⟩ ⟨2024, 5, 1⟩) ∧
    ((complianceResult ⟨2024, 6, 15⟩ ⟨2024, 5, 1⟩).passed = true ↔
      (((2024 : ℚ)) - ((2024 : ℚ))) * 12 + (((6 : ℚ)) - ((5 : ℚ))) +
          (((15 : ℚ)) - ((1 : ℚ))) / 30 ≤
        (if (5 : Nat) ∈ summerMonths then (2 : ℚ) else 3) + 1 / 10) :=
  claim_C1 "2024-05-01" ⟨2024, 6, 15⟩ ⟨2024, 5, 1⟩ (by decide)

/-- C6: on the text "2024년 5월 1일" the checker finds latest = 2024-05-01;
with today = 2024-06-15 the elapsed months are 22/15 (≈ 1.47) and the
compliance check passes; with today = 2024-09-01 the elapsed months are
exactly 4 and the compliance check fails. -/
theorem claim_C6 :
    latestPastDate "2024년 5월 1일" ⟨2024, 6, 15⟩ = some ⟨2024, 5, 1⟩ ∧
    month_diff ⟨2024, 6, 15⟩ ⟨2024, 5, 1⟩ = 22 / 15 ∧
    (check_disinfection_certificate "2024년 5월 1일" ⟨2024, 6, 15⟩)[6]? =
      some (complianceResult ⟨2024, 6, 15⟩ ⟨2024, 5, 1⟩) ∧
    (complianceResult ⟨2024, 6, 15⟩ ⟨2024, 5, 1⟩).passed = true ∧
    latestPastDate "2024년 5월 1일" ⟨2024, 9, 1⟩ = some ⟨2024, 5, 1⟩ ∧
    month_diff ⟨2024, 9, 1⟩ ⟨2024, 5, 1⟩ = 4 ∧
    (check_disinfection_certificate "2024년 5월 1일" ⟨2024, 9, 1⟩)[6]? =
      some (complianceResult ⟨2024, 9, 1⟩ ⟨2024, 5, 1⟩) ∧
    (complianceResult ⟨2024, 9, 1⟩ ⟨2024, 5, 1⟩).passed = false := by
  refine ⟨by decide, by norm_num [month_diff], rfl, ?_, by decide,
    by norm_num [month_diff], rfl, ?_⟩ <;>
    · simp only [complianceResult, summerMonths, summerMaxMonths, winterMaxMonths,
        month_diff, decide_eq_true_eq, decide_eq_false_iff_not]
      norm_num

/-- C2: each required-field result passes exactly when the keyword occurs
as a literal contiguous substring of the text, and on the empty text every
keyword check fails. -/
theorem claim_C2 (text : String) (today : CalendarDate) (kw : String) :
    (kw ∈ bizFields → requiredKwResult kw text ∈ check_business_registration text) ∧
    (kw ∈ disFields →
      requiredKwResult kw text ∈ check_disinfection_certificate text today) ∧
    ((requiredKwResult kw text).passed = true ↔
      ∃ s t, text.data = s ++ kw.data ++ t) ∧
    ((kw ∈ bizFields ∨ kw ∈ disFields) → (requiredKwResult kw "").passed = false) := by
  refine ⟨fun hk => ?_, fun hk => ?_, ?_, fun hk => ?_⟩
  · simp only [check_business_registration]
    exact List.mem_append_left _ (List.mem_map_of_mem _ hk)
  · simp only [check_disinfection_certificate]
    exact List.mem_append_left _ (List.mem_append_left _
      (List.mem_append_left _ (List.mem_map_of_mem _ hk)))
  · simp only [requiredKwResult, hasSub_iff]
  · rcases hk with hk | hk <;> fin_cases hk <;> decide

/-- Witness for C2 at the keyword "상호" on a text containing it. -/
theorem claim_C2_witness :
    requiredKwResult "상호" "계약서 상호명" ∈ check_business_registration "계약서 상호명" ∧
    ((requiredKwResult "상호" "계약서 상호명").passed = true ↔
      ∃ s t, "계약서 상호명".data = s ++ "상호".data ++ t) ∧
    (requiredKwResult "상호" "").passed = false := by
  obtain ⟨h1, h2, h3, h4⟩ := claim_C2 "계약서 상호명" ⟨2024, 1, 1⟩ "상호"
  exact ⟨h1 (by decide), h3, h4 (Or.inl (by decide))⟩

/-- C4: the future-date check is the last result and passes exactly when no
extracted date (unfiltered) is strictly after today; an empty extraction
passes vacuously. -/
theorem claim_C4 (text : String) (today : CalendarDate) :
    (check_disinfection_certificate text today).getLast? =
      some (futureResult text today) ∧
    ((futureResult text today).passed = true ↔
      ∀ d ∈ find_dates text, dateLtb today d = false) := by
  constructor
  · rw [check_disinfection_certificate]
    exact List.getLast?_concat _
  · simp [futureResult, List.any_eq_false]

/-- Witness for C4 on the empty text, where no dates are extracted and the
check passes. -/
theorem claim_C4_witness :
    (check_disinfection_certificate "" ⟨2024, 1, 1⟩).getLast? =
      some (futureResult "" ⟨2024, 1, 1⟩) ∧
    (futureResult "" ⟨2024, 1, 1⟩).passed = true :=
  ⟨(claim_C4 "" ⟨2024, 1, 1⟩).1, (claim_C4 "" ⟨2024, 1, 1⟩).2.mpr (by decide)⟩

/-- C5: when no extracted date is on or before today, the date-found check
fails, the compliance check is omitted entirely (seven results, none named
"소독주기 충족 여부"), and the future-date check is still emitted last. -/
theorem claim_C5 (text : String) (today : CalendarDate)
    (h : latestPastDate text today = none) :
    (check_disinfection_certificate text today).map (fun r => r.name) =
      ["필수항목 포함 여부: 소독", "필수항목 포함 여부: 대상", "필수항목 포함 여부: 시설",
       "필수항목 포함 여부: 기간", "필수항목 포함 여부: 실시자", "소독일(최신 과거일자) 추출",
       "미래 날짜 등록 여부"] ∧
    (check_disinfection_certificate text today)[5]? =
      some (dateFoundResult text today) ∧
    (dateFoundResult text today).passed = false := by
  refine ⟨?_, ?_, ?_⟩
  · simp [check_disinfection_certificate, disFields, requiredKwResult,
      complianceResultList, dateFoundResult, futureResult, h]
  · simp [check_disinfection_certificate, disFields, complianceResultList, h]
  · simp [dateFoundResult, h]

/-- Witness for C5 on the empty text. -/
theorem claim_C5_witness :
    (check_disinfection_certificate "" ⟨2024, 1, 1⟩).map (fun r => r.name) =
      ["필수항목 포함 여부: 소독", "필수항목 포함 여부: 대상", "필수항목 포함 여부: 시설",
       "필수항목 포함 여부: 기간", "필수항목 포함 여부: 실시자", "소독일(최신 과거일자) 추출",
       "미래 날짜 등록 여부"] ∧
    (check_disinfection_certificate "" ⟨2024, 1, 1⟩)[5]? =
      some (dateFoundResult "" ⟨2024, 1, 1⟩) ∧
    (dateFoundResult "" ⟨2024, 1, 1⟩).passed = false :=
  claim_C5 "" ⟨2024, 1, 1⟩ (by decide)

theorem validDate_of_mem_filterMap {l : List (Nat × Nat × Nat)} {d : CalendarDate}
    (hd : d ∈ l.filterMap mkDate) : validDate d.year d.month d.day = true := by
  rcases List.mem_filterMap.mp hd with ⟨t, -, ht⟩
  by_cases hv : validDate t.1 t.2.1 t.2.2
  · simp only [mkDate, hv, if_pos, Option.some.injEq] at ht
    obtain rfl := ht
    simpa using hv
  · simp [mkDate, hv] at ht

/-- C7: the checkers are total on every string — every regex match with an
invalid calendar triple is dropped from `find_dates` (its output holds only
valid dates), and both checkers always return their result list (six
results for business registration, seven or eight for the disinfection
certificate). -/
theorem claim_C7 (text : String) (today : CalendarDate) :
    (∀ d ∈ find_dates text, validDate d.year d.month d.day = true) ∧
    (check_business_registration text).length = 6 ∧
    ((check_disinfection_certificate text today).length = 7 ∨
      (check_disinfection_certificate text today).length = 8) := by
  refine ⟨fun d hd => ?_, ?_, ?_⟩
  · rw [find_dates] at hd
    rcases List.mem_append.mp hd with hd' | hd'
    · rcases List.mem_append.mp hd' with hd'' | hd''
      · exact validDate_of_mem_filterMap hd''
      · exact validDate_of_mem_filterMap hd''
    · exact validDate_of_mem_filterMap hd'
  · simp [check_business_registration, bizFields]
  · cases h : latestPastDate text today
    · left
      simp [check_disinfection_certificate, disFields, complianceResultList, h]
    · right
      simp [check_disinfection_certificate, disFields, complianceResultList, h]

/-- Witness for C7: a concrete extracted date is valid, and the business
checker returns six results on the empty text. -/
theorem claim_C7_witness :
    validDate (CalendarDate.mk 2024 5 1).year (CalendarDate.mk 2024 5 1).month
      (CalendarDate.mk 2024 5 1).day = true ∧
    (check_business_registration "").length = 6 :=
  ⟨(claim_C7 "2024-05-01" ⟨2024, 6, 15⟩).1 ⟨2024, 5, 1⟩ (by decide),
   (claim_C7 "" ⟨2024, 1, 1⟩).2.1⟩

theorem digit_ne_dash {c : Char} (h : pyDigit c = true) : (c == '-') = false := by
  cases hb : c == '-'
  · rfl
  · rw [beq_iff_eq] at hb
    subst hb
    exact absurd h (by decide)

theorem bizBranch1_sound {cs m : List Char} (h : bizBranch1 cs = some m) :
    bizForm m = true ∧ ∃ t, cs = m ++ t := by
  unfold bizBranch1 at h
  split at h
  · rename_i c1 c2 c3 s1 c4 c5 s2 c6 c7 c8 c9 c10 tail
    split at h
    · rename_i hcond
      obtain rfl := (Option.some_inj.mp h)
      exact ⟨by simp [bizForm, bizForm1, hcond], tail, rfl⟩
    · exact absurd h (by simp)
  · exact absurd h (by simp)

theorem bizBranch2_sound {cs m : List Char} (h : bizBranch2 cs = some m) :
    bizForm m = true ∧ ∃ t, cs = m ++ t := by
  unfold bizBranch2 at h
  split at h
  · rename_i c1 c2 c3 c4 c5 c6 c7 c8 c9 c10 tail
    split at h
    · rename_i hcond
      obtain rfl := (Option.some_inj.mp h)
      exact ⟨by simp [bizForm, bizForm2, hcond], tail, rfl⟩
    · exact absurd h (by simp)
  · exact absurd h (by simp)

theorem bizAt_sound {cs m : List Char} (h : bizAt cs = some m) :
    bizForm m = true ∧ ∃ t, cs = m ++ t := by
  unfold bizAt at h
  cases h1 : bizBranch1 cs with
  | some m1 =>
    rw [h1] at h
    obtain rfl := (Option.some_inj.mp h)
    exact bizBranch1_sound h1
  | none =>
    rw [h1] at h
    exact bizBranch2_sound h

theorem bizAt_of_bizForm {m : List Char} (t : List Char) (h : bizForm m = true) :
    (bizAt (m ++ t)).isSome = true := by
  have h' : bizForm1 m = true ∨ bizForm2 m = true := by
    simpa [bizForm] using h
  rcases h' with h1 | h2
  · unfold bizForm1 at h1
    split at h1
    · rename_i c1 c2 c3 s1 c4 c5 s2 c6 c7 c8 c9 c10
      simp [bizAt, bizBranch1, h1]
    · exact absurd h1 (by simp)
  · unfold bizForm2 at h2
    split at h2
    · rename_i c1 c2 c3 c4 c5 c6 c7 c8 c9 c10
      have hc4 : pyDigit c4 = true := by
        by_contra hne
        rw [Bool.not_eq_true] at hne
        simp [hne] at h2
      have hdash := digit_ne_dash hc4
      cases t with
      | nil => simp [bizAt, bizBranch1, bizBranch2, h2]
      | cons x t1 =>
        cases t1 with
        | nil => simp [bizAt, bizBranch1, bizBranch2, h2]
        | cons y t2 => simp [bizAt, bizBranch1, bizBranch2, hdash, h2]
    · exact absurd h2 (by simp)

theorem searchBiz_sound {cs m : List Char} (h : searchBiz cs = some m) :
    ∃ s t, cs = s ++ m ++ t ∧ bizForm m = true := by
  induction cs with
  | nil => exact absurd h (by simp [searchBiz])
  | cons c rest ih =>
    rw [searchBiz] at h
    cases hb : bizAt (c :: rest) with
    | some m1 =>
      rw [hb] at h
      obtain rfl := (Option.some_inj.mp h)
      obtain ⟨hform, t, ht⟩ := bizAt_sound hb
      exact ⟨[], t, by simpa using ht, hform⟩
    | none =>
      rw [hb] at h
      obtain ⟨s, t, hst, hform⟩ := ih h
      exact ⟨c :: s, t, by simp [hst], hform⟩

theorem searchBiz_append_isSome (s : List Char) {rest : List Char}
    (h : (bizAt rest).isSome = true) : (searchBiz (s ++ rest)).isSome = true := by
  induction s with
  | nil =>
    rw [List.nil_append]
    cases rest with
    | nil => exact absurd h (by simp [bizAt, bizBranch1, bizBranch2])
    | cons c r =>
      rw [searchBiz]
      cases hb : bizAt (c :: r) with
      | some m => simp
      | none => rw [hb] at h; exact absurd h (by simp)
  | cons c s1 ih =>
    rw [List.cons_append, searchBiz]
    cases hb : bizAt (c :: (s1 ++ rest)) with
    | some m => simp
    | none => simpa using ih

/-- C10: the business-registration format check passes exactly when the
text contains a substring of shape `DDD-DD-DDDDD` or ten consecutive
decimal digits anywhere (unanchored, so any longer digit run also
contains such a window), and the detail reports the leftmost matched
substring. -/
theorem claim_C10 (text : String) :
    (check_business_registration text)[5]? = some (bizNumberResult text) ∧
    ((bizNumberResult text).passed = true ↔
      ∃ s m t, text.data = s ++ m ++ t ∧ bizForm m = true) ∧
    (∀ m, searchBiz text.data = some m →
      (bizNumberResult text).detail = "감지값: " ++ String.mk m) := by
  refine ⟨?_, ?_, fun m hm => ?_⟩
  · simp [check_business_registration, bizFields]
  · simp only [bizNumberResult]
    constructor
    · intro h
      obtain ⟨m, hm⟩ := Option.isSome_iff_exists.mp h
      obtain ⟨s, t, hst, hform⟩ := searchBiz_sound hm
      exact ⟨s, m, t, hst, hform⟩
    · rintro ⟨s, m, t, hst, hform⟩
      rw [hst, List.append_assoc]
      exact searchBiz_append_isSome s (bizAt_of_bizForm t hform)
  · simp [bizNumberResult, hm]

/-- Witness for C10: an eleven-digit phone number makes the format check
pass (the first ten digits form a match). -/
theorem claim_C10_witness :
    (check_business_registration "전화 01012345678")[5]? =
      some (bizNumberResult "전화 01012345678") ∧
    (bizNumberResult "전화 01012345678").passed = true := by
  obtain ⟨h1, h2, h3⟩ := claim_C10 "전화 01012345678"
  exact ⟨h1, h2.mpr ⟨"전화 ".data, "0101234567".data, "8".data, by decide, by decide⟩⟩

theorem scan10_complete (f : List Char → Option (Nat × Nat × Nat))
    (hnil : f [] = none) :
    ∀ (fuel : Nat) (cs : List Char), cs.length ≤ fuel → ∀ (i : Nat) (t : Nat × Nat × Nat),
      f (cs.drop i) = some t →
      t ∈ scanFixed10 f fuel cs ∨
        ∃ j, j < i ∧ i < j + 10 ∧ (f (cs.drop j)).isSome = true := by
  intro fuel
  induction fuel with
  | zero =>
    intro cs hlen i t h
    rw [List.eq_nil_of_length_eq_zero (Nat.le_zero.mp hlen), List.drop_nil, hnil] at h
    exact absurd h (by simp)
  | succ fuel ih =>
    intro cs hlen i t h
    cases cs with
    | nil =>
      rw [List.drop_nil, hnil] at h
      exact absurd h (by simp)
    | cons c rest =>
      simp only [List.length_cons, Nat.add_le_add_iff_right] at hlen
      cases hcf : f (c :: rest) with
      | some t0 =>
        rcases Nat.lt_or_ge i 10 with hi | hi
        · rcases Nat.eq_zero_or_pos i with h0 | hpos
          · subst h0
            rw [List.drop_zero, hcf] at h
            obtain rfl := (Option.some_inj.mp h)
            left
            simp [scanFixed10, hcf]
          · right
            exact ⟨0, hpos, by omega, by rw [List.drop_zero]; simp [hcf]⟩
        · obtain ⟨k, rfl⟩ : ∃ k, i = k + 1 := ⟨i - 1, by omega⟩
          have hdrop : (c :: rest).drop (k + 1) = (rest.drop 9).drop (k + 1 - 10) := by
            rw [List.drop_succ_cons, List.drop_drop]
            congr 1
            omega
          rw [hdrop] at h
          rcases ih (rest.drop 9) (by simp [List.length_drop]; omega) (k + 1 - 10) t h with
            hmem | ⟨j, hj1, hj2, hj3⟩
          · left
            simp only [scanFixed10, hcf]
            exact List.mem_cons_of_mem _ hmem
          · right
            refine ⟨j + 10, by omega, by omega, ?_⟩
            rw [show j + 10 = (9 + j) + 1 by omega, List.drop_succ_cons]
            rw [List.drop_drop] at hj3
            exact hj3
      | none =>
        cases i with
        | zero =>
          rw [List.drop_zero, hcf] at h
          exact absurd h (by simp)
        | succ k =>
          rw [List.drop_succ_cons] at h
          rcases ih rest hlen k t h with hmem | ⟨j, hj1, hj2, hj3⟩
          · left
            simpa only [scanFixed10, hcf] using hmem
          · right
            exact ⟨j + 1, by omega, by omega, by rw [List.drop_succ_cons]; exact hj3⟩

/-- C3 (amended): every occurrence of the numeric `YYYY sep MM sep DD` form
that the first pattern can match — year 2000-2099 (the pattern fixes the
literal prefix "20"), month window 01-12, day window 01-31, separators
each from the class — whose triple is a valid calendar date, and which no
overlapping earlier position also matches (the scan is non-overlapping),
yields its date in `find_dates`. -/
theorem claim_C3 (text : String) (i y m d : Nat)
    (h : p1At (text.data.drop i) = some (y, m, d))
    (hv : validDate y m d = true)
    (hnov : ∀ j, j < i → i < j + 10 → p1At (text.data.drop j) = none) :
    (⟨y, m, d⟩ : CalendarDate) ∈ find_dates text := by
  rcases scan10_complete p1At rfl text.data.length text.data (Nat.le_refl _) i (y, m, d) h
    with hmem | ⟨j, hj1, hj2, hj3⟩
  · rw [find_dates]
    apply List.mem_append_left
    apply List.mem_append_left
    exact List.mem_filterMap.mpr ⟨(y, m, d), hmem, by simp [mkDate, hv]⟩
  · rw [hnov j hj1 hj2] at hj3
    exact absurd hj3 (by simp)

/-- Witness for C3 (amended) at the one-date text "2024-05-01". -/
theorem claim_C3_witness :
    p1At ("2024-05-01".data.drop 0) = some (2024, 5, 1) ∧
    (⟨2024, 5, 1⟩ : CalendarDate) ∈ find_dates "2024-05-01" :=
  ⟨by decide,
   claim_C3 "2024-05-01" 0 2024 5 1 (by decide) (by decide)
     (fun j hj1 _ => absurd hj1 (by omega))⟩

/-- Counterexample to C3 as stated: "1999-05-01" contains the numeric form
with a valid date whose year is outside 2000-2099, and `find_dates` misses
it; "2020-12-2020-12-31" contains the valid occurrence "2020-12-31", which
is consumed by the earlier overlapping match "2020-12-20" of the
non-overlapping scan and is likewise missing. -/
theorem claim_C3_counterexample :
    (specNumericOccurrence "1999-05-01" 1999 5 1 = true ∧
      validDate 1999 5 1 = true ∧
      (⟨1999, 5, 1⟩ : CalendarDate) ∉ find_dates "1999-05-01") ∧
    (specNumericOccurrence "2020-12-2020-12-31" 2020 12 31 = true ∧
      validDate 2020 12 31 = true ∧
      (⟨2020, 12, 31⟩ : CalendarDate) ∉ find_dates "2020-12-2020-12-31") := by
  decide
